import Mathlib

/-
Verification of the statistics-aggregation and linearization pipeline in
`stattests.py`: the data model (observation rows, `Statistics`,
`EstimatorCriteriaValues`), the three metric aggregators, the ratio-metric
linearization, the three estimators and the aggregator dispatch.

Numeric values are embedded as rationals.  pandas `Series.var()` returns NaN
on fewer than two observations; NaN is embedded as `none` of an `Option`.
The external statistical-library primitives (`ttest_ind_from_stats`,
`mannwhitneyu`, `proportions_ztest`) are black boxes the estimators call;
they are embedded as explicit function parameters returning
`Except String (ℚ × ℚ)`, where `Except.error` stands for a raised exception.
The ambient logger is embedded by returning the list of error messages
logged during a call.
-/

namespace Stattests

/-- One observation row of the input dataset: the variant label
(`cfg.VARIANT_COL` column) and the `num`, `den` and `n` columns. -/
structure Row where
  variant : Nat
  num : ℚ
  den : ℚ
  n : ℚ
deriving DecidableEq

/-- The tabular dataset handed to the aggregators: the base rows plus the
optional derived `l_ratio` column, positionally aligned with `rows`; the
column is absent until `calculate_linearization` writes it. -/
structure DataFrame where
  rows : List Row
  l_ratio : Option (List ℚ)
deriving DecidableEq

/-- `df[cfg.VARIANT_COL].unique()`: the distinct variant labels in
first-occurrence order. -/
def uniqueVariants (rows : List Row) : List Nat :=
  rows.foldl (fun acc r => if r.variant ∈ acc then acc else acc ++ [r.variant]) []

/-- `df[df[cfg.VARIANT_COL] == v]`: the rows of one variant, in order. -/
def variantRows (rows : List Row) (v : Nat) : List Row :=
  rows.filter (fun r => r.variant == v)

/-- `df[col][df[cfg.VARIANT_COL] == v]`: a derived column (positionally
aligned with `rows`) restricted to the rows of one variant. -/
def colFilter (rows : List Row) (col : List ℚ) (v : Nat) : List ℚ :=
  ((rows.zip col).filter (fun p => p.1.variant == v)).map (fun p => p.2)

/-- `df.loc[df[cfg.VARIANT_COL] == v, col] = vals`: pandas masked assignment.
The entries of the column at the rows of variant `v` receive the values of
`vals` in order (index-aligned, which for a series built from the same mask
is positional); all other entries are unchanged. -/
def writeMasked : List Row → List ℚ → Nat → List ℚ → List ℚ
  | [], cs, _, _ => cs
  | _ :: _, [], _, _ => []
  | r :: rs, c :: cs, v, vals =>
    if r.variant == v then
      match vals with
      | [] => c :: writeMasked rs cs v []
      | w :: ws => w :: writeMasked rs cs v ws
    else
      c :: writeMasked rs cs v vals

/-- pandas `Series.var()`: the ddof = 1 sample variance of the values,
`none` (NaN) when fewer than two values are present. -/
def sampleVar (xs : List ℚ) : Option ℚ :=
  if xs.length < 2 then none
  else
    let m := xs.sum / (xs.length : ℚ)
    some ((xs.map (fun x => (x - m) ^ 2)).sum / ((xs.length : ℚ) - 1))

/-- `Linearization.__call__`: the pooled ratio `k = sum(num_0) / sum(den_0)`
(denominator taken from variant 0 only) and the elementwise linearized
values `l_0 = num_0 - k * den_0`, `l_1 = num_1 - k * den_1`. -/
def Linearization (num_0 den_0 num_1 den_1 : List ℚ) : List ℚ × List ℚ :=
  let k := num_0.sum / den_0.sum
  ((num_0.zip den_0).map (fun p => p.1 - k * p.2),
   (num_1.zip den_1).map (fun p => p.1 - k * p.2))

/-- `calculate_linearization`: initializes the `l_ratio` column to 0; when
every row satisfies `den == n` it copies `num` into `l_ratio` for both
variants, otherwise it calls `Linearization` on the per-variant `num`/`den`
columns and writes the two result series back to the rows of their
variants.  The returned dataframe is the same (mutated) object the caller
passed in. -/
def calculate_linearization (df : DataFrame) : DataFrame :=
  let _variants := uniqueVariants df.rows
  let v0 := _variants.getD 0 0
  let v1 := _variants.getD 1 0
  let base := List.replicate df.rows.length (0 : ℚ)
  if ∀ r ∈ df.rows, r.den = r.n then
    let c0 := writeMasked df.rows base v0 ((variantRows df.rows v0).map Row.num)
    ⟨df.rows, some (writeMasked df.rows c0 v1 ((variantRows df.rows v1).map Row.num))⟩
  else
    let l := Linearization
      ((variantRows df.rows v0).map Row.num) ((variantRows df.rows v0).map Row.den)
      ((variantRows df.rows v1).map Row.num) ((variantRows df.rows v1).map Row.den)
    let c0 := writeMasked df.rows base v0 l.1
    ⟨df.rows, some (writeMasked df.rows c0 v1 l.2)⟩

/-- The `Statistics` record produced by the aggregators.  `var` fields are
`Option` because pandas variance is NaN below two observations; `den`
fields default to `None` as in the Python constructor. -/
structure Statistics where
  mean_0 : ℚ
  mean_1 : ℚ
  var_0 : Option ℚ
  var_1 : Option ℚ
  n_0 : ℚ
  n_1 : ℚ
  num_0 : List ℚ
  num_1 : List ℚ
  den_0 : Option (List ℚ) := none
  den_1 : Option (List ℚ) := none
deriving DecidableEq

/-- `BaseStatsRatio.__call__`.  The second component of the result is the
caller-visible state of the dataframe after the call:
`calculate_linearization(df)` mutates the dataframe object in place (it
adds the `l_ratio` column), so the caller's binding sees the updated
dataframe once the aggregator returns. -/
def BaseStatsRatio (df0 : DataFrame) : Statistics × DataFrame :=
  let _unique_variants := uniqueVariants df0.rows
  let v0 := _unique_variants.getD 0 0
  let v1 := _unique_variants.getD 1 0
  let df := calculate_linearization df0
  let n_0 := ((variantRows df.rows v0).map Row.n).sum
  let n_1 := ((variantRows df.rows v1).map Row.n).sum
  let mean_0 := ((variantRows df.rows v0).map Row.num).sum /
    ((variantRows df.rows v0).map Row.den).sum
  let mean_1 := ((variantRows df.rows v1).map Row.num).sum /
    ((variantRows df.rows v1).map Row.den).sum
  let var_0 := sampleVar (colFilter df.rows (df.l_ratio.getD []) v0)
  let var_1 := sampleVar (colFilter df.rows (df.l_ratio.getD []) v1)
  let num_0 := (variantRows df.rows v0).map Row.num
  let den_0 := (variantRows df.rows v0).map Row.den
  let num_1 := (variantRows df.rows v1).map Row.num
  let den_1 := (variantRows df.rows v1).map Row.den
  (⟨mean_0, mean_1, var_0, var_1, n_0, n_1, num_0, num_1, some den_0, some den_1⟩, df)

/-- `BaseStatsUserLevel.__call__`; the dataframe is left untouched. -/
def BaseStatsUserLevel (df : DataFrame) : Statistics × DataFrame :=
  let _unique_variants := uniqueVariants df.rows
  let v0 := _unique_variants.getD 0 0
  let v1 := _unique_variants.getD 1 0
  let n_0 := ((variantRows df.rows v0).map Row.n).sum
  let n_1 := ((variantRows df.rows v1).map Row.n).sum
  let mean_0 := ((variantRows df.rows v0).map Row.num).sum
  let mean_1 := ((variantRows df.rows v1).map Row.num).sum
  let var_0 := sampleVar ((variantRows df.rows v0).map Row.num)
  let var_1 := sampleVar ((variantRows df.rows v1).map Row.num)
  let num_0 := (variantRows df.rows v0).map Row.num
  let num_1 := (variantRows df.rows v1).map Row.num
  (⟨mean_0, mean_1, var_0, var_1, n_0, n_1, num_0, num_1, none, none⟩, df)

/-- `BaseStatsBernoulli.__call__`; the dataframe is left untouched. -/
def BaseStatsBernoulli (df : DataFrame) : Statistics × DataFrame :=
  let _unique_variants := uniqueVariants df.rows
  let v0 := _unique_variants.getD 0 0
  let v1 := _unique_variants.getD 1 0
  let n_0 := ((variantRows df.rows v0).map Row.n).sum
  let n_1 := ((variantRows df.rows v1).map Row.n).sum
  let mean_0 := ((variantRows df.rows v0).map Row.num).sum / n_0
  let mean_1 := ((variantRows df.rows v1).map Row.num).sum / n_1
  let var_0 := sampleVar ((variantRows df.rows v0).map Row.num)
  let var_1 := sampleVar ((variantRows df.rows v1).map Row.num)
  let num_0 := (variantRows df.rows v0).map Row.num
  let num_1 := (variantRows df.rows v1).map Row.num
  (⟨mean_0, mean_1, var_0, var_1, n_0, n_1, num_0, num_1, none, none⟩, df)

/-- `EstimatorCriteriaValues`: the estimator result; `none` stands for the
Python `None` sentinel written on failure. -/
structure EstimatorCriteriaValues where
  pvalue : Option ℚ
  statistic : Option ℚ
deriving DecidableEq

/-- `TTestFromStats.__call__`: calls the external `ttest_ind_from_stats`
with the per-variant `(mean, std, nobs)` summaries (the std passed by the
source is `np.sqrt(var)`; the opaque external function here receives the
variance itself, the square root being composed into the black box, with
NaN variance as `none`).  A raised exception is caught, logged, and both
fields are set to `None`.  The second component collects the messages
logged during the call. -/
def TTestFromStats
    (ttest_ind_from_stats : ℚ → Option ℚ → ℚ → ℚ → Option ℚ → ℚ → Except String (ℚ × ℚ))
    (stat : Statistics) : EstimatorCriteriaValues × List String :=
  match ttest_ind_from_stats stat.mean_0 stat.var_0 stat.n_0 stat.mean_1 stat.var_1 stat.n_1 with
  | Except.ok (statistic, pvalue) => (⟨some pvalue, some statistic⟩, [])
  | Except.error e => (⟨none, none⟩, [e])

/-- `MannWhitney.__call__`: calls the external `mannwhitneyu` on the two raw
`num` series; same exception-to-`None` policy as the t-test estimator. -/
def MannWhitney
    (mannwhitneyu : List ℚ → List ℚ → Except String (ℚ × ℚ))
    (stat : Statistics) : EstimatorCriteriaValues × List String :=
  match mannwhitneyu stat.num_0 stat.num_1 with
  | Except.ok (statistic, pvalue) => (⟨some pvalue, some statistic⟩, [])
  | Except.error e => (⟨none, none⟩, [e])

/-- `ProportionsZtest.__call__`: calls the external `proportions_ztest` with
the success counts `[sum(num_0), sum(num_1)]` and trial counts
`[n_0, n_1]`; same exception-to-`None` policy. -/
def ProportionsZtest
    (proportions_ztest : List ℚ → List ℚ → Except String (ℚ × ℚ))
    (stat : Statistics) : EstimatorCriteriaValues × List String :=
  match proportions_ztest [stat.num_0.sum, stat.num_1.sum] [stat.n_0, stat.n_1] with
  | Except.ok (statistic, pvalue) => (⟨some pvalue, some statistic⟩, [])
  | Except.error e => (⟨none, none⟩, [e])

/-- Modelled from the spec: scipy's `ttest_ind_from_stats` is an external
statistical-library primitive, not part of this repository's sources.  Per
the spec's failure policy, a degenerate input — in particular an
insufficient sample, fewer than two observations in a group — makes the
underlying computation fail with an exception; on admissible input it
returns some (statistic, pvalue) pair whose numeric formula is out of
scope (the library is a black box). -/
def ttest_ind_from_stats_model (mean1 : ℚ) (_var1 : Option ℚ) (nobs1 : ℚ)
    (mean2 : ℚ) (_var2 : Option ℚ) (nobs2 : ℚ) : Except String (ℚ × ℚ) :=
  if nobs1 < 2 ∨ nobs2 < 2 then
    Except.error "insufficient sample"
  else
    Except.ok (mean1 - mean2, 1)

/-- The `mappings` dict of `calculate_statistics`, as an association list
in the source's key order. -/
def mappings : List (String × (DataFrame → Statistics × DataFrame)) :=
  [("ratio", BaseStatsRatio), ("bernoulli", BaseStatsBernoulli),
   ("user-level", BaseStatsUserLevel)]

/-- `calculate_statistics`: looks the metric-type label up in `mappings`
and applies the resulting aggregator.  An unknown label makes the dict
subscript raise `KeyError`, which propagates to the caller; the raised
lookup error is embedded as `Except.error`. -/
def calculate_statistics (df : DataFrame) (type : String) :
    Except String (Statistics × DataFrame) :=
  match mappings.lookup type with
  | some calculate_method => Except.ok (calculate_method df)
  | none => Except.error "KeyError"

/-- Scenario C of the spec: three variant-0 rows `(num=10, den=5, n=1)` and
three variant-1 rows `(num=20, den=5, n=1)`. -/
def scenarioC : DataFrame :=
  ⟨[⟨0, 10, 5, 1⟩, ⟨0, 10, 5, 1⟩, ⟨0, 10, 5, 1⟩,
    ⟨1, 20, 5, 1⟩, ⟨1, 20, 5, 1⟩, ⟨1, 20, 5, 1⟩], none⟩

/-- A dataset in which every row satisfies `den == n`. -/
def denEqNDataset : DataFrame :=
  ⟨[⟨0, 1, 1, 1⟩, ⟨0, 2, 1, 1⟩, ⟨1, 3, 1, 1⟩, ⟨1, 5, 1, 1⟩], none⟩

/-- A dataset whose variant-0 rows carry pre-aggregated unit counts
`n = 0` and `n = 2`: their sum equals the row count although not every
entry is 1. -/
def preAggregatedDataset : DataFrame :=
  ⟨[⟨0, 1, 1, 0⟩, ⟨0, 2, 1, 2⟩, ⟨1, 3, 1, 1⟩, ⟨1, 4, 1, 1⟩], none⟩

/-- The pooled ratio `k = sum(num_0) / sum(den_0)` that
`calculate_linearization` computes from the first-encountered variant. -/
def pooledK (df : DataFrame) : ℚ :=
  ((variantRows df.rows ((uniqueVariants df.rows).getD 0 0)).map Row.num).sum /
  ((variantRows df.rows ((uniqueVariants df.rows).getD 0 0)).map Row.den).sum

lemma uniqueVariants_nodup_aux (rows : List Row) :
    ∀ acc : List Nat, acc.Nodup →
    (rows.foldl (fun acc r => if r.variant ∈ acc then acc else acc ++ [r.variant]) acc).Nodup := by
  induction rows with
  | nil => intro acc h; exact h
  | cons r rs ih =>
    intro acc h
    simp only [List.foldl_cons]
    apply ih
    by_cases hm : r.variant ∈ acc
    · simpa [hm] using h
    · simp [hm, List.nodup_append, h]

lemma uniqueVariants_nodup (rows : List Row) : (uniqueVariants rows).Nodup :=
  uniqueVariants_nodup_aux rows [] (by simp)

lemma writeMasked_length : ∀ (rows : List Row) (col : List ℚ) (v : Nat) (vals : List ℚ),
    (writeMasked rows col v vals).length = col.length
  | [], _, _, _ => rfl
  | _ :: _, [], _, _ => rfl
  | r :: rs, c :: cs, v, vals => by
    by_cases h : (r.variant == v) = true
    · cases vals with
      | nil => simp [writeMasked, h, writeMasked_length rs cs v []]
      | cons w ws => simp [writeMasked, h, writeMasked_length rs cs v ws]
    · simp [writeMasked, h, writeMasked_length rs cs v vals]

lemma colFilter_cons_true {r : Row} {rs : List Row} {c : ℚ} {cs : List ℚ} {v : Nat}
    (h : (r.variant == v) = true) :
    colFilter (r :: rs) (c :: cs) v = c :: colFilter rs cs v := by
  simp [colFilter, List.zip_cons_cons, List.filter_cons, h]

lemma colFilter_cons_false {r : Row} {rs : List Row} {c : ℚ} {cs : List ℚ} {v : Nat}
    (h : ¬ (r.variant == v) = true) :
    colFilter (r :: rs) (c :: cs) v = colFilter rs cs v := by
  simp [colFilter, List.zip_cons_cons, List.filter_cons, h]

lemma variantRows_cons_true {r : Row} {rs : List Row} {v : Nat}
    (h : (r.variant == v) = true) :
    variantRows (r :: rs) v = r :: variantRows rs v := by
  simp [variantRows, List.filter_cons, h]

lemma variantRows_cons_false {r : Row} {rs : List Row} {v : Nat}
    (h : ¬ (r.variant == v) = true) :
    variantRows (r :: rs) v = variantRows rs v := by
  simp [variantRows, List.filter_cons, h]

lemma colFilter_writeMasked_self : ∀ (rows : List Row) (col vals : List ℚ) (v : Nat),
    col.length = rows.length → vals.length = (variantRows rows v).length →
    colFilter rows (writeMasked rows col v vals) v = vals
  | [], col, vals, v, _, hvals => by
    have : vals = [] := by
      simpa [variantRows, List.length_eq_zero] using hvals
    simp [this, colFilter]
  | r :: rs, col, vals, v, hcol, hvals => by
    cases col with
    | nil => simp at hcol
    | cons c cs =>
      simp only [List.length_cons, Nat.succ_inj] at hcol
      by_cases h : (r.variant == v) = true
      · rw [variantRows_cons_true h] at hvals
        cases vals with
        | nil => simp at hvals
        | cons w ws =>
          simp only [List.length_cons, Nat.succ_inj] at hvals
          have hw : writeMasked (r :: rs) (c :: cs) v (w :: ws)
              = w :: writeMasked rs cs v ws := by
            simp [writeMasked, h]
          rw [hw, colFilter_cons_true h,
            colFilter_writeMasked_self rs cs ws v hcol hvals]
      · rw [variantRows_cons_false h] at hvals
        have hw : writeMasked (r :: rs) (c :: cs) v vals
            = c :: writeMasked rs cs v vals := by
          simp [writeMasked, h]
        rw [hw, colFilter_cons_false h,
          colFilter_writeMasked_self rs cs vals v hcol hvals]

lemma colFilter_writeMasked_other : ∀ (rows : List Row) (col vals : List ℚ) (v w : Nat),
    v ≠ w → col.length = rows.length →
    colFilter rows (writeMasked rows col w vals) v = colFilter rows col v
  | [], col, vals, v, w, _, _ => by simp [writeMasked]
  | r :: rs, col, vals, v, w, hvw, hcol => by
    cases col with
    | nil => simp at hcol
    | cons c cs =>
      simp only [List.length_cons, Nat.succ_inj] at hcol
      by_cases hw : (r.variant == w) = true
      · have hrv : ¬ (r.variant == v) = true := by
          simp only [beq_iff_eq] at hw ⊢
          rw [hw]
          exact fun hc => hvw hc.symm
        cases vals with
        | nil =>
          have hstep : writeMasked (r :: rs) (c :: cs) w []
              = c :: writeMasked rs cs w [] := by
            simp [writeMasked, hw]
          rw [hstep, colFilter_cons_false hrv, colFilter_cons_false hrv,
            colFilter_writeMasked_other rs cs [] v w hvw hcol]
        | cons x xs =>
          have hstep : writeMasked (r :: rs) (c :: cs) w (x :: xs)
              = x :: writeMasked rs cs w xs := by
            simp [writeMasked, hw]
          rw [hstep, colFilter_cons_false hrv, colFilter_cons_false hrv,
            colFilter_writeMasked_other rs cs xs v w hvw hcol]
      · have hstep : writeMasked (r :: rs) (c :: cs) w vals
            = c :: writeMasked rs cs w vals := by
          simp [writeMasked, hw]
        by_cases hv : (r.variant == v) = true
        · rw [hstep, colFilter_cons_true hv, colFilter_cons_true hv,
            colFilter_writeMasked_other rs cs vals v w hvw hcol]
        · rw [hstep, colFilter_cons_false hv, colFilter_cons_false hv,
            colFilter_writeMasked_other rs cs vals v w hvw hcol]

lemma zip_num_den_map (rs : List Row) (k : ℚ) :
    ((rs.map Row.num).zip (rs.map Row.den)).map (fun p => p.1 - k * p.2)
      = rs.map (fun r => r.num - k * r.den) := by
  rw [List.zip_map']
  simp [List.map_map, Function.comp]

lemma calculate_linearization_rows (df : DataFrame) :
    (calculate_linearization df).rows = df.rows := by
  simp only [calculate_linearization]
  split <;> rfl

lemma calculate_linearization_l_ratio_some (df : DataFrame) :
    ∃ c : List ℚ, (calculate_linearization df).l_ratio = some c
      ∧ c.length = df.rows.length := by
  simp only [calculate_linearization]
  split
  · exact ⟨_, rfl, by simp [writeMasked_length]⟩
  · exact ⟨_, rfl, by simp [writeMasked_length]⟩

lemma uniqueVariants_pair_ne (rows : List Row) (v0 v1 : Nat)
    (hv : uniqueVariants rows = [v0, v1]) : v0 ≠ v1 := by
  have hnd := uniqueVariants_nodup rows
  rw [hv] at hnd
  simp only [List.nodup_cons, List.mem_singleton] at hnd
  exact hnd.1

lemma linearization_active_cols (df : DataFrame) (v0 v1 : Nat)
    (hv : uniqueVariants df.rows = [v0, v1])
    (hact : ¬ ∀ r ∈ df.rows, r.den = r.n) :
    colFilter df.rows (((calculate_linearization df).l_ratio).getD []) v0
      = (variantRows df.rows v0).map (fun r => r.num - pooledK df * r.den)
  ∧ colFilter df.rows (((calculate_linearization df).l_ratio).getD []) v1
      = (variantRows df.rows v1).map (fun r => r.num - pooledK df * r.den) := by
  have hne : v0 ≠ v1 := uniqueVariants_pair_ne df.rows v0 v1 hv
  have hk : pooledK df
      = ((variantRows df.rows v0).map Row.num).sum /
        ((variantRows df.rows v0).map Row.den).sum := by
    simp [pooledK, hv]
  simp only [calculate_linearization, hv, List.getD_cons_zero, List.getD_cons_succ,
    Linearization]
  rw [if_neg hact]
  simp only [Option.getD_some]
  constructor
  · rw [colFilter_writeMasked_other df.rows _ _ v0 v1 hne
        (by simp [writeMasked_length]),
      colFilter_writeMasked_self df.rows _ _ v0 (by simp)
        (by simp [List.length_zip]),
      zip_num_den_map, hk]
  · rw [colFilter_writeMasked_self df.rows _ _ v1 (by simp [writeMasked_length])
        (by simp [List.length_zip]),
      zip_num_den_map, hk]

lemma linearization_skip_cols (df : DataFrame) (v0 v1 : Nat)
    (hv : uniqueVariants df.rows = [v0, v1])
    (hall : ∀ r ∈ df.rows, r.den = r.n) :
    colFilter df.rows (((calculate_linearization df).l_ratio).getD []) v0
      = (variantRows df.rows v0).map Row.num
  ∧ colFilter df.rows (((calculate_linearization df).l_ratio).getD []) v1
      = (variantRows df.rows v1).map Row.num := by
  have hne : v0 ≠ v1 := uniqueVariants_pair_ne df.rows v0 v1 hv
  simp only [calculate_linearization, hv, List.getD_cons_zero, List.getD_cons_succ]
  rw [if_pos hall]
  simp only [Option.getD_some]
  constructor
  · rw [colFilter_writeMasked_other df.rows _ _ v0 v1 hne
        (by simp [writeMasked_length]),
      colFilter_writeMasked_self df.rows _ _ v0 (by simp) (by simp)]
  · rw [colFilter_writeMasked_self df.rows _ _ v1 (by simp [writeMasked_length])
        (by simp)]

/-- Claim C1: on a two-variant dataset on which linearization is active
(not every row has `den == n`), `calculate_linearization` computes the
pooled ratio `k = sum(num_0) / sum(den_0)` from the denominator of the
first-encountered variant only, and sets the linearized value of each
variant-0 row to `num - k * den` and of each variant-1 row to
`num - k * den`; in particular on Scenario C the pooled ratio is `2` and
every variant-0 linearized value equals `0` exactly. -/
theorem ratio_linearization_pooled_ratio (df : DataFrame) (v0 v1 : Nat)
    (hv : uniqueVariants df.rows = [v0, v1])
    (hact : ¬ ∀ r ∈ df.rows, r.den = r.n) :
    (colFilter df.rows (((calculate_linearization df).l_ratio).getD []) v0
       = (variantRows df.rows v0).map (fun r => r.num - pooledK df * r.den)
     ∧ colFilter df.rows (((calculate_linearization df).l_ratio).getD []) v1
       = (variantRows df.rows v1).map (fun r => r.num - pooledK df * r.den))
    ∧ (pooledK scenarioC = 2
     ∧ colFilter scenarioC.rows
         (((calculate_linearization scenarioC).l_ratio).getD []) 0 = [0, 0, 0]) := by
  have hu : uniqueVariants scenarioC.rows = [0, 1] := by decide
  have hsc : ¬ ∀ r ∈ scenarioC.rows, r.den = r.n := by decide
  have hvr : variantRows scenarioC.rows 0
      = [⟨0, 10, 5, 1⟩, ⟨0, 10, 5, 1⟩, ⟨0, 10, 5, 1⟩] := by decide
  have hk : pooledK scenarioC = 2 := by
    rw [pooledK, hu]
    simp only [List.getD_cons_zero]
    rw [hvr]
    norm_num [List.sum_cons, List.sum_nil]
  have hc := (linearization_active_cols scenarioC 0 1 hu hsc).1
  refine ⟨linearization_active_cols df v0 v1 hv hact, hk, ?_⟩
  rw [hc, hvr, hk]
  norm_num

theorem ratio_linearization_pooled_ratio_witness :
    uniqueVariants scenarioC.rows = [0, 1]
  ∧ (¬ ∀ r ∈ scenarioC.rows, r.den = r.n)
  ∧ colFilter scenarioC.rows (((calculate_linearization scenarioC).l_ratio).getD []) 0
      = (variantRows scenarioC.rows 0).map (fun r => r.num - pooledK scenarioC * r.den) :=
  ⟨by decide, by decide,
   (ratio_linearization_pooled_ratio scenarioC 0 1 (by decide) (by decide)).1.1⟩

/-- Claim C2: on a two-variant dataset in which every row satisfies
`den == n`, linearization is skipped and the derived `l_ratio` column
equals the `num` column exactly, row by row, for both variants. -/
theorem skip_path_l_ratio_eq_num (df : DataFrame) (v0 v1 : Nat)
    (hv : uniqueVariants df.rows = [v0, v1])
    (hall : ∀ r ∈ df.rows, r.den = r.n) :
    colFilter df.rows (((calculate_linearization df).l_ratio).getD []) v0
      = (variantRows df.rows v0).map Row.num
  ∧ colFilter df.rows (((calculate_linearization df).l_ratio).getD []) v1
      = (variantRows df.rows v1).map Row.num :=
  linearization_skip_cols df v0 v1 hv hall

theorem skip_path_l_ratio_eq_num_witness :
    uniqueVariants denEqNDataset.rows = [0, 1]
  ∧ (∀ r ∈ denEqNDataset.rows, r.den = r.n)
  ∧ colFilter denEqNDataset.rows
      (((calculate_linearization denEqNDataset).l_ratio).getD []) 0
      = (variantRows denEqNDataset.rows 0).map Row.num :=
  ⟨by decide, by decide,
   (skip_path_l_ratio_eq_num denEqNDataset 0 1 (by decide) (by decide)).1⟩

/-- Claim C3: for a two-variant dataset with nonzero denominator sums in
both variants, the ratio aggregator's means are the per-variant ratios of
sums `sum(num_i) / sum(den_i)`.  The formula reads only the `num` and
`den` columns of the input rows, never the `l_ratio` column, so the value
is the same whether the linearization path or the skip path was taken. -/
theorem ratio_mean_invariant (df : DataFrame) (v0 v1 : Nat)
    (hv : uniqueVariants df.rows = [v0, v1])
    (_hd0 : ((variantRows df.rows v0).map Row.den).sum ≠ 0)
    (_hd1 : ((variantRows df.rows v1).map Row.den).sum ≠ 0) :
    (BaseStatsRatio df).1.mean_0
      = ((variantRows df.rows v0).map Row.num).sum /
        ((variantRows df.rows v0).map Row.den).sum
  ∧ (BaseStatsRatio df).1.mean_1
      = ((variantRows df.rows v1).map Row.num).sum /
        ((variantRows df.rows v1).map Row.den).sum := by
  constructor <;>
    simp [BaseStatsRatio, hv, calculate_linearization_rows]

theorem ratio_mean_invariant_witness :
    (BaseStatsRatio scenarioC).1.mean_0
      = ((variantRows scenarioC.rows 0).map Row.num).sum /
        ((variantRows scenarioC.rows 0).map Row.den).sum
  ∧ (BaseStatsRatio scenarioC).1.mean_1
      = ((variantRows scenarioC.rows 1).map Row.num).sum /
        ((variantRows scenarioC.rows 1).map Row.den).sum :=
  ratio_mean_invariant scenarioC 0 1 (by decide)
    (by rw [show variantRows scenarioC.rows 0
          = [⟨0, 10, 5, 1⟩, ⟨0, 10, 5, 1⟩, ⟨0, 10, 5, 1⟩] from by decide]
        norm_num)
    (by rw [show variantRows scenarioC.rows 1
          = [⟨1, 20, 5, 1⟩, ⟨1, 20, 5, 1⟩, ⟨1, 20, 5, 1⟩] from by decide]
        norm_num)

lemma TTestFromStats_ok
    (tt : ℚ → Option ℚ → ℚ → ℚ → Option ℚ → ℚ → Except String (ℚ × ℚ))
    (stat : Statistics) (a b : ℚ)
    (h : tt stat.mean_0 stat.var_0 stat.n_0 stat.mean_1 stat.var_1 stat.n_1
      = Except.ok (a, b)) :
    TTestFromStats tt stat = (⟨some b, some a⟩, []) := by
  simp [TTestFromStats, h]

lemma TTestFromStats_error
    (tt : ℚ → Option ℚ → ℚ → ℚ → Option ℚ → ℚ → Except String (ℚ × ℚ))
    (stat : Statistics) (e : String)
    (h : tt stat.mean_0 stat.var_0 stat.n_0 stat.mean_1 stat.var_1 stat.n_1
      = Except.error e) :
    TTestFromStats tt stat = (⟨none, none⟩, [e]) := by
  simp [TTestFromStats, h]

lemma MannWhitney_ok (mw : List ℚ → List ℚ → Except String (ℚ × ℚ))
    (stat : Statistics) (a b : ℚ)
    (h : mw stat.num_0 stat.num_1 = Except.ok (a, b)) :
    MannWhitney mw stat = (⟨some b, some a⟩, []) := by
  simp [MannWhitney, h]

lemma MannWhitney_error (mw : List ℚ → List ℚ → Except String (ℚ × ℚ))
    (stat : Statistics) (e : String)
    (h : mw stat.num_0 stat.num_1 = Except.error e) :
    MannWhitney mw stat = (⟨none, none⟩, [e]) := by
  simp [MannWhitney, h]

lemma ProportionsZtest_ok (pz : List ℚ → List ℚ → Except String (ℚ × ℚ))
    (stat : Statistics) (a b : ℚ)
    (h : pz [stat.num_0.sum, stat.num_1.sum] [stat.n_0, stat.n_1] = Except.ok (a, b)) :
    ProportionsZtest pz stat = (⟨some b, some a⟩, []) := by
  simp [ProportionsZtest, h]

lemma ProportionsZtest_error (pz : List ℚ → List ℚ → Except String (ℚ × ℚ))
    (stat : Statistics) (e : String)
    (h : pz [stat.num_0.sum, stat.num_1.sum] [stat.n_0, stat.n_1] = Except.error e) :
    ProportionsZtest pz stat = (⟨none, none⟩, [e]) := by
  simp [ProportionsZtest, h]

/-- Claim C4: the three estimators are total functions into
`EstimatorCriteriaValues` (the caught exception is converted, never
re-thrown), and for every underlying computation the `statistic` and
`pvalue` fields are unset together exactly when that computation fails —
they are never unset independently of each other. -/
theorem estimators_soft_failure_pairing
    (tt : ℚ → Option ℚ → ℚ → ℚ → Option ℚ → ℚ → Except String (ℚ × ℚ))
    (mw pz : List ℚ → List ℚ → Except String (ℚ × ℚ))
    (stat : Statistics) :
    (((TTestFromStats tt stat).1.statistic = none
        ↔ (tt stat.mean_0 stat.var_0 stat.n_0 stat.mean_1 stat.var_1 stat.n_1).toOption
            = none)
     ∧ ((TTestFromStats tt stat).1.pvalue = none
        ↔ (tt stat.mean_0 stat.var_0 stat.n_0 stat.mean_1 stat.var_1 stat.n_1).toOption
            = none))
  ∧ (((MannWhitney mw stat).1.statistic = none
        ↔ (mw stat.num_0 stat.num_1).toOption = none)
     ∧ ((MannWhitney mw stat).1.pvalue = none
        ↔ (mw stat.num_0 stat.num_1).toOption = none))
  ∧ (((ProportionsZtest pz stat).1.statistic = none
        ↔ (pz [stat.num_0.sum, stat.num_1.sum] [stat.n_0, stat.n_1]).toOption = none)
     ∧ ((ProportionsZtest pz stat).1.pvalue = none
        ↔ (pz [stat.num_0.sum, stat.num_1.sum] [stat.n_0, stat.n_1]).toOption = none)) := by
  refine ⟨?_, ?_, ?_⟩
  · cases h : tt stat.mean_0 stat.var_0 stat.n_0 stat.mean_1 stat.var_1 stat.n_1 with
    | ok v =>
      obtain ⟨a, b⟩ := v
      rw [TTestFromStats_ok tt stat a b h]
      simp [Except.toOption]
    | error e =>
      rw [TTestFromStats_error tt stat e h]
      simp [Except.toOption]
  · cases h : mw stat.num_0 stat.num_1 with
    | ok v =>
      obtain ⟨a, b⟩ := v
      rw [MannWhitney_ok mw stat a b h]
      simp [Except.toOption]
    | error e =>
      rw [MannWhitney_error mw stat e h]
      simp [Except.toOption]
  · cases h : pz [stat.num_0.sum, stat.num_1.sum] [stat.n_0, stat.n_1] with
    | ok v =>
      obtain ⟨a, b⟩ := v
      rw [ProportionsZtest_ok pz stat a b h]
      simp [Except.toOption]
    | error e =>
      rw [ProportionsZtest_error pz stat e h]
      simp [Except.toOption]

/-- Claim C5: the aggregator dispatch raises the lookup error (a
`KeyError` that propagates to the caller) on any metric-type label
outside the three known ones — it never silently falls back to a default
aggregator — and each of the three valid labels selects the
correspondingly named aggregator. -/
theorem calculate_statistics_dispatch (df : DataFrame) :
    (∀ t : String, t ≠ "ratio" → t ≠ "bernoulli" → t ≠ "user-level" →
       calculate_statistics df t = Except.error "KeyError")
  ∧ calculate_statistics df "ratio" = Except.ok (BaseStatsRatio df)
  ∧ calculate_statistics df "bernoulli" = Except.ok (BaseStatsBernoulli df)
  ∧ calculate_statistics df "user-level" = Except.ok (BaseStatsUserLevel df) := by
  refine ⟨?_, rfl, rfl, rfl⟩
  intro t h1 h2 h3
  simp [calculate_statistics, mappings, List.lookup,
    beq_eq_false_iff_ne.mpr h1, beq_eq_false_iff_ne.mpr h2,
    beq_eq_false_iff_ne.mpr h3]

theorem calculate_statistics_dispatch_witness :
    calculate_statistics ⟨[], none⟩ "conversion" = Except.error "KeyError" :=
  (calculate_statistics_dispatch ⟨[], none⟩).1 "conversion"
    (by decide) (by decide) (by decide)

/-- Claim C6: feeding a `Statistics` record with `n_0 = 1` and `n_1 = 1`
into the t-test estimator — whose underlying external computation,
modelled from the spec, fails on such an insufficient sample — yields a
result with both fields unset and logs exactly one error. -/
theorem ttest_insufficient_sample_soft_failure (stat : Statistics)
    (h0 : stat.n_0 = 1) (_h1 : stat.n_1 = 1) :
    (TTestFromStats ttest_ind_from_stats_model stat).1.statistic = none
  ∧ (TTestFromStats ttest_ind_from_stats_model stat).1.pvalue = none
  ∧ ((TTestFromStats ttest_ind_from_stats_model stat).2).length = 1 := by
  have herr : ttest_ind_from_stats_model stat.mean_0 stat.var_0 stat.n_0
      stat.mean_1 stat.var_1 stat.n_1 = Except.error "insufficient sample" := by
    unfold ttest_ind_from_stats_model
    rw [if_pos (Or.inl (by rw [h0]; norm_num))]
  rw [TTestFromStats_error _ _ _ herr]
  exact ⟨rfl, rfl, rfl⟩

theorem ttest_insufficient_sample_soft_failure_witness :
    (TTestFromStats ttest_ind_from_stats_model
       ⟨0, 0, none, none, 1, 1, [0], [0], none, none⟩).1.statistic = none
  ∧ (TTestFromStats ttest_ind_from_stats_model
       ⟨0, 0, none, none, 1, 1, [0], [0], none, none⟩).1.pvalue = none
  ∧ ((TTestFromStats ttest_ind_from_stats_model
       ⟨0, 0, none, none, 1, 1, [0], [0], none, none⟩).2).length = 1 :=
  ttest_insufficient_sample_soft_failure
    ⟨0, 0, none, none, 1, 1, [0], [0], none, none⟩ rfl rfl

/-- Claim C7 counterexample: running the ratio aggregator on Scenario C
changes the caller-visible dataframe — `calculate_linearization` writes
the derived `l_ratio` column into the very dataframe object the caller
passed in, so after the call the caller's dataset no longer holds exactly
the columns it held before. -/
theorem ratio_aggregator_mutates_caller :
    (BaseStatsRatio scenarioC).2 ≠ scenarioC := by
  intro h
  obtain ⟨c, hc, -⟩ := calculate_linearization_l_ratio_some scenarioC
  have h2 : (BaseStatsRatio scenarioC).2.l_ratio = scenarioC.l_ratio := by rw [h]
  have h3 : (BaseStatsRatio scenarioC).2.l_ratio = some c := hc
  rw [h3] at h2
  simp [scenarioC] at h2

/-- Claim C7 amended: the bernoulli and user-level aggregators leave the
caller's dataframe unchanged, and the ratio aggregator keeps every base
column (the rows with their `variant`/`num`/`den`/`n` values) intact; but
the ratio aggregator adds the derived `l_ratio` column (one value per
row) to the caller-visible dataframe in place rather than to an isolated
copy. -/
theorem aggregators_mutation_extent (df : DataFrame) :
    (BaseStatsBernoulli df).2 = df
  ∧ (BaseStatsUserLevel df).2 = df
  ∧ (BaseStatsRatio df).2.rows = df.rows
  ∧ ∃ c : List ℚ, (BaseStatsRatio df).2.l_ratio = some c
      ∧ c.length = df.rows.length :=
  ⟨rfl, rfl, calculate_linearization_rows df,
   calculate_linearization_l_ratio_some df⟩

/-- Claim C8: the `Statistics` record produced by the ratio aggregator
carries the per-variant denominator sequences in `den_0`/`den_1`, while
the bernoulli and user-level aggregators leave both fields unset. -/
theorem den_fields_presence (df : DataFrame) :
    (BaseStatsRatio df).1.den_0
      = some ((variantRows df.rows ((uniqueVariants df.rows).getD 0 0)).map Row.den)
  ∧ (BaseStatsRatio df).1.den_1
      = some ((variantRows df.rows ((uniqueVariants df.rows).getD 1 0)).map Row.den)
  ∧ (BaseStatsBernoulli df).1.den_0 = none
  ∧ (BaseStatsBernoulli df).1.den_1 = none
  ∧ (BaseStatsUserLevel df).1.den_0 = none
  ∧ (BaseStatsUserLevel df).1.den_1 = none := by
  refine ⟨?_, ?_, rfl, rfl, rfl, rfl⟩ <;>
    simp [BaseStatsRatio, calculate_linearization_rows]

/-- Claim C9 counterexample: on `preAggregatedDataset` the variant-0 `n`
entries are 0 and 2 — not all 1 — yet `n_0`, the sum of the `n` column,
still equals the length of the retained `num_0` sequence; so "`n_i`
equals the length of the retained sequence only when every `n` entry of
that variant is 1" is false as stated. -/
theorem n_sum_equals_length_without_all_ones :
    (BaseStatsUserLevel preAggregatedDataset).1.n_0
      = ((BaseStatsUserLevel preAggregatedDataset).1.num_0.length : ℚ)
  ∧ ¬ (∀ r ∈ variantRows preAggregatedDataset.rows 0, r.n = 1) := by
  constructor
  · have hu : uniqueVariants preAggregatedDataset.rows = [0, 1] := by decide
    have hvr : variantRows preAggregatedDataset.rows 0
        = [⟨0, 1, 1, 0⟩, ⟨0, 2, 1, 2⟩] := by decide
    simp [BaseStatsUserLevel, hu, hvr]
  · intro hall
    have h := hall ⟨0, 2, 1, 2⟩ (by decide)
    norm_num at h

lemma length_le_sum_of_one_le : ∀ (xs : List ℚ), (∀ x ∈ xs, 1 ≤ x) →
    (xs.length : ℚ) ≤ xs.sum
  | [], _ => by simp
  | x :: xs, h => by
    have h1 := h x (by simp)
    have h2 := length_le_sum_of_one_le xs (fun y hy => h y (by simp [hy]))
    simp only [List.length_cons, List.sum_cons]
    push_cast
    linarith

lemma sum_eq_length_iff_all_one : ∀ (xs : List ℚ), (∀ x ∈ xs, 1 ≤ x) →
    (xs.sum = (xs.length : ℚ) ↔ ∀ x ∈ xs, x = 1)
  | [], _ => by simp
  | x :: xs, h => by
    have hx := h x (by simp)
    have hxs : ∀ y ∈ xs, 1 ≤ y := fun y hy => h y (by simp [hy])
    have hlen := length_le_sum_of_one_le xs hxs
    have ih := sum_eq_length_iff_all_one xs hxs
    constructor
    · intro hsum
      simp only [List.sum_cons, List.length_cons] at hsum
      push_cast at hsum
      have hx1 : x = 1 := le_antisymm (by linarith) hx
      have hsum' : xs.sum = (xs.length : ℚ) := by linarith
      intro y hy
      rcases List.mem_cons.mp hy with rfl | hy'
      · exact hx1
      · exact ih.mp hsum' y hy'
    · intro hall
      simp only [List.sum_cons, List.length_cons]
      push_cast
      rw [hall x (by simp), ih.mpr (fun y hy => hall y (by simp [hy]))]
      ring

lemma n_sum_eq_length_iff (rows : List Row) (v : Nat)
    (hpos : ∀ r ∈ variantRows rows v, 1 ≤ r.n) :
    ((variantRows rows v).map Row.n).sum = ((variantRows rows v).length : ℚ)
      ↔ ∀ r ∈ variantRows rows v, r.n = 1 := by
  have hposf : ∀ x ∈ (variantRows rows v).map Row.n, 1 ≤ x := by
    intro x hx
    obtain ⟨r, hr, rfl⟩ := List.mem_map.mp hx
    exact hpos r hr
  rw [show ((variantRows rows v).length : ℚ)
      = (((variantRows rows v).map Row.n).length : ℚ) by rw [List.length_map]]
  rw [sum_eq_length_iff_all_one _ hposf]
  constructor
  · intro hone r hr
    exact hone r.n (List.mem_map.mpr ⟨r, hr, rfl⟩)
  · intro hone x hx
    obtain ⟨r, hr, rfl⟩ := List.mem_map.mp hx
    exact hone r hr

/-- Claim C9 amended: for every two-variant dataset, in all three
aggregators `n_0`/`n_1` are the sums of the `n` column over the variant's
rows, not the row counts, and the `var_0`/`var_1` fields are the sample
variances over the rows of the per-row column (`num`, or `l_ratio` for
the ratio aggregator), with no dependence on the `n` values; when every
`n` entry of a variant is at least 1 (entries are unit counts), `n_i`
equals the length of the retained `num_i` sequence exactly when every
`n` entry of that variant is 1 — with entries allowed below 1 the sum
can match the length without all entries being 1. -/
theorem aggregator_n_is_sum_of_n_column (df : DataFrame) (v0 v1 : Nat)
    (hv : uniqueVariants df.rows = [v0, v1]) :
    ((BaseStatsUserLevel df).1.n_0 = ((variantRows df.rows v0).map Row.n).sum
     ∧ (BaseStatsBernoulli df).1.n_0 = ((variantRows df.rows v0).map Row.n).sum
     ∧ (BaseStatsRatio df).1.n_0 = ((variantRows df.rows v0).map Row.n).sum
     ∧ (BaseStatsUserLevel df).1.n_1 = ((variantRows df.rows v1).map Row.n).sum
     ∧ (BaseStatsBernoulli df).1.n_1 = ((variantRows df.rows v1).map Row.n).sum
     ∧ (BaseStatsRatio df).1.n_1 = ((variantRows df.rows v1).map Row.n).sum)
  ∧ ((BaseStatsUserLevel df).1.var_0 = sampleVar ((variantRows df.rows v0).map Row.num)
     ∧ (BaseStatsUserLevel df).1.var_1 = sampleVar ((variantRows df.rows v1).map Row.num)
     ∧ (BaseStatsBernoulli df).1.var_0 = sampleVar ((variantRows df.rows v0).map Row.num)
     ∧ (BaseStatsBernoulli df).1.var_1 = sampleVar ((variantRows df.rows v1).map Row.num)
     ∧ (BaseStatsRatio df).1.var_0
         = sampleVar (colFilter df.rows (((calculate_linearization df).l_ratio).getD []) v0)
     ∧ (BaseStatsRatio df).1.var_1
         = sampleVar (colFilter df.rows (((calculate_linearization df).l_ratio).getD []) v1))
  ∧ ((∀ r ∈ variantRows df.rows v0, 1 ≤ r.n) →
      (((BaseStatsUserLevel df).1.n_0 = ((BaseStatsUserLevel df).1.num_0.length : ℚ)
          ↔ ∀ r ∈ variantRows df.rows v0, r.n = 1)
       ∧ ((BaseStatsBernoulli df).1.n_0 = ((BaseStatsBernoulli df).1.num_0.length : ℚ)
          ↔ ∀ r ∈ variantRows df.rows v0, r.n = 1)
       ∧ ((BaseStatsRatio df).1.n_0 = ((BaseStatsRatio df).1.num_0.length : ℚ)
          ↔ ∀ r ∈ variantRows df.rows v0, r.n = 1)))
  ∧ ((∀ r ∈ variantRows df.rows v1, 1 ≤ r.n) →
      (((BaseStatsUserLevel df).1.n_1 = ((BaseStatsUserLevel df).1.num_1.length : ℚ)
          ↔ ∀ r ∈ variantRows df.rows v1, r.n = 1)
       ∧ ((BaseStatsBernoulli df).1.n_1 = ((BaseStatsBernoulli df).1.num_1.length : ℚ)
          ↔ ∀ r ∈ variantRows df.rows v1, r.n = 1)
       ∧ ((BaseStatsRatio df).1.n_1 = ((BaseStatsRatio df).1.num_1.length : ℚ)
          ↔ ∀ r ∈ variantRows df.rows v1, r.n = 1))) := by
  have hnU0 : (BaseStatsUserLevel df).1.n_0 = ((variantRows df.rows v0).map Row.n).sum := by
    simp [BaseStatsUserLevel, hv]
  have hnB0 : (BaseStatsBernoulli df).1.n_0 = ((variantRows df.rows v0).map Row.n).sum := by
    simp [BaseStatsBernoulli, hv]
  have hnR0 : (BaseStatsRatio df).1.n_0 = ((variantRows df.rows v0).map Row.n).sum := by
    simp [BaseStatsRatio, hv, calculate_linearization_rows]
  have hnU1 : (BaseStatsUserLevel df).1.n_1 = ((variantRows df.rows v1).map Row.n).sum := by
    simp [BaseStatsUserLevel, hv]
  have hnB1 : (BaseStatsBernoulli df).1.n_1 = ((variantRows df.rows v1).map Row.n).sum := by
    simp [BaseStatsBernoulli, hv]
  have hnR1 : (BaseStatsRatio df).1.n_1 = ((variantRows df.rows v1).map Row.n).sum := by
    simp [BaseStatsRatio, hv, calculate_linearization_rows]
  have hmU0 : (BaseStatsUserLevel df).1.num_0 = (variantRows df.rows v0).map Row.num := by
    simp [BaseStatsUserLevel, hv]
  have hmB0 : (BaseStatsBernoulli df).1.num_0 = (variantRows df.rows v0).map Row.num := by
    simp [BaseStatsBernoulli, hv]
  have hmR0 : (BaseStatsRatio df).1.num_0 = (variantRows df.rows v0).map Row.num := by
    simp [BaseStatsRatio, hv, calculate_linearization_rows]
  have hmU1 : (BaseStatsUserLevel df).1.num_1 = (variantRows df.rows v1).map Row.num := by
    simp [BaseStatsUserLevel, hv]
  have hmB1 : (BaseStatsBernoulli df).1.num_1 = (variantRows df.rows v1).map Row.num := by
    simp [BaseStatsBernoulli, hv]
  have hmR1 : (BaseStatsRatio df).1.num_1 = (variantRows df.rows v1).map Row.num := by
    simp [BaseStatsRatio, hv, calculate_linearization_rows]
  refine ⟨⟨hnU0, hnB0, hnR0, hnU1, hnB1, hnR1⟩, ⟨?_, ?_, ?_, ?_, ?_, ?_⟩, ?_, ?_⟩
  · simp [BaseStatsUserLevel, hv]
  · simp [BaseStatsUserLevel, hv]
  · simp [BaseStatsBernoulli, hv]
  · simp [BaseStatsBernoulli, hv]
  · simp [BaseStatsRatio, hv, calculate_linearization_rows]
  · simp [BaseStatsRatio, hv, calculate_linearization_rows]
  · intro hpos0
    have hiff := n_sum_eq_length_iff df.rows v0 hpos0
    refine ⟨?_, ?_, ?_⟩
    · rw [hnU0, hmU0, List.length_map]; exact hiff
    · rw [hnB0, hmB0, List.length_map]; exact hiff
    · rw [hnR0, hmR0, List.length_map]; exact hiff
  · intro hpos1
    have hiff := n_sum_eq_length_iff df.rows v1 hpos1
    refine ⟨?_, ?_, ?_⟩
    · rw [hnU1, hmU1, List.length_map]; exact hiff
    · rw [hnB1, hmB1, List.length_map]; exact hiff
    · rw [hnR1, hmR1, List.length_map]; exact hiff

theorem aggregator_n_is_sum_of_n_column_witness :
    uniqueVariants denEqNDataset.rows = [0, 1]
  ∧ ((BaseStatsUserLevel denEqNDataset).1.n_0
       = ((variantRows denEqNDataset.rows 0).map Row.n).sum)
  ∧ (∀ r ∈ variantRows denEqNDataset.rows 0, 1 ≤ r.n)
  ∧ ((BaseStatsUserLevel denEqNDataset).1.n_0
        = ((BaseStatsUserLevel denEqNDataset).1.num_0.length : ℚ)
      ↔ ∀ r ∈ variantRows denEqNDataset.rows 0, r.n = 1) :=
  ⟨by decide,
   ((aggregator_n_is_sum_of_n_column denEqNDataset 0 1 (by decide)).1).1,
   by decide,
   ((((aggregator_n_is_sum_of_n_column denEqNDataset 0 1 (by decide)).2).2).1
     (by decide)).1⟩

/-- Claim C10: the Mann-Whitney estimator reads only the `num_0` and
`num_1` fields of the `Statistics` record, so any two records agreeing on
those two fields give identical results (including identical log output)
no matter how their mean, var, n and den fields differ. -/
theorem mannwhitney_depends_only_on_num
    (mw : List ℚ → List ℚ → Except String (ℚ × ℚ)) (s1 s2 : Statistics)
    (h0 : s1.num_0 = s2.num_0) (h1 : s1.num_1 = s2.num_1) :
    MannWhitney mw s1 = MannWhitney mw s2 := by
  simp only [MannWhitney, h0, h1]

theorem mannwhitney_depends_only_on_num_witness :
    MannWhitney (fun a b => Except.ok (a.sum, b.sum))
      ⟨5, 6, none, none, 3, 3, [1, 2], [3], none, none⟩
    = MannWhitney (fun a b => Except.ok (a.sum, b.sum))
      ⟨0, 7, some 1, some 2, 9, 11, [1, 2], [3], some [4], some [5]⟩ :=
  mannwhitney_depends_only_on_num _ _ _ rfl rfl

end Stattests
